import Mathlib

/-!
# Verification of the testimony-app backend core

Shallow embedding of the cursor-pagination / query-normalization engine of
the clip-listing endpoint (`src/routes/process-video.js`, clips router), the
time parser (`src/lib/parse.ts`) and the clip-timing validator
(`src/lib/title-override.ts`), together with proofs and refutations of the
specification's claims about them.

Modelling conventions:
* JavaScript numbers that the code only ever treats as integers
  (seconds, millisecond timestamps, counters) are modelled as `Int`/`Nat`.
* Fallible functions (`throw` in JS) are modelled with `Except String`
  carrying the thrown message.
* The Node builtins `JSON.stringify` / `JSON.parse` and the base64url
  `Buffer` codec are the serialization layer of the cursor wire format; they
  are inverse on JSON values, so the cursor codec is modelled at the level of
  JSON values (`Json` below): `encodeCursor` produces the JSON value that is
  serialized, `decodeCursorVal` is the structural validation the code runs on
  the parsed value (lines 98-118 of the route file).
-/

/-- JSON values as produced by `JSON.parse`.  Numbers are modelled as `Int`
(the cursor payloads are millisecond timestamps and counters, produced by
`Timestamp.toMillis` / `Date.now` / integer counters). -/
inductive Json where
  | null : Json
  | bool (b : Bool) : Json
  | num (n : Int) : Json
  | str (s : String) : Json
  | arr (elems : List Json) : Json
  | obj (fields : List (String × Json)) : Json

namespace Json

/-- Field lookup on a parsed JSON value, as JS property access `j.key`.
`JSON.parse` never yields duplicate keys (later duplicates overwrite), so
first-occurrence lookup is faithful.  Property access on a non-object yields
`undefined`, modelled `none`. -/
def getField (j : Json) (key : String) : Option Json :=
  match j with
  | .obj fields => fields.lookup key
  | _ => none

/-- The JS `'key' in j` test (key presence). -/
def hasKey (j : Json) (key : String) : Bool :=
  (j.getField key).isSome

/-- `typeof j.key === 'string'`. -/
def fieldIsString (j : Json) (key : String) : Bool :=
  match j.getField key with
  | some (.str _) => true
  | _ => false

/-- `typeof j.key === 'number'`. -/
def fieldIsNumber (j : Json) (key : String) : Bool :=
  match j.getField key with
  | some (.num _) => true
  | _ => false

/-- `typeof j === 'object'` in JS: objects, arrays and `null` all have
typeof `"object"`. -/
def typeofIsObject (j : Json) : Bool :=
  match j with
  | .obj _ => true
  | .arr _ => true
  | .null => true
  | _ => false

end Json

/-! ## JavaScript string / number primitives used by the embedded code -/

/-- Digit list to natural number, most significant first. -/
def natOfDigits (ds : List Char) : Nat :=
  ds.foldl (fun acc c => acc * 10 + (c.toNat - '0'.toNat)) 0

/-- Whitespace skipped by JS `parseInt` (the common ASCII whitespace set). -/
def isJsSpace (c : Char) : Bool :=
  c = ' ' || c = '\t' || c = '\n' || c = '\r' || c = Char.ofNat 11 || c = Char.ofNat 12

/-- JS `parseInt(s, 10)`: skip leading whitespace, optional sign, then the
longest leading run of decimal digits; trailing characters are ignored.
`none` models `NaN` (no leading digits). -/
def jsParseInt (s : String) : Option Int :=
  let t := s.data.dropWhile isJsSpace
  match t with
  | '-' :: rest =>
    let ds := rest.takeWhile Char.isDigit
    if ds.isEmpty then none else some (-(natOfDigits ds : Int))
  | '+' :: rest =>
    let ds := rest.takeWhile Char.isDigit
    if ds.isEmpty then none else some (natOfDigits ds : Int)
  | _ =>
    let ds := t.takeWhile Char.isDigit
    if ds.isEmpty then none else some (natOfDigits ds : Int)

/-- First maximal run of decimal digits in a string, as `s.match(/\d+/)?.[0]`
in JS.  `none` models a failed match (`null`). -/
def firstDigitRun (s : String) : Option String :=
  go s.data
where
  go : List Char → Option String
  | [] => none
  | c :: rest =>
    if c.isDigit then some (String.mk (c :: rest.takeWhile Char.isDigit))
    else go rest

/-- Lexicographic `≤` on char lists by code point, as JS string comparison. -/
def lexLe : List Char → List Char → Bool
  | [], _ => true
  | _ :: _, [] => false
  | a :: as, b :: bs => if a < b then true else if b < a then false else lexLe as bs

/-- JS string comparison `a <= b` (code-unit lexicographic; identical to
code-point order on the ASCII date strings compared here). -/
def strLe (a b : String) : Bool := lexLe a.data b.data

/-- `n.toString().padStart(2, '0')` for the non-negative values it is applied
to. -/
def padStart2 (s : String) : String :=
  if s.length ≥ 2 then s else if s.length = 1 then "0" ++ s else "00"

/-- JS `s.trim()`: strip leading and trailing whitespace. -/
def jsTrim (s : String) : String :=
  String.mk (((s.data.dropWhile isJsSpace).reverse.dropWhile isJsSpace).reverse)

/-- Auxiliary for `jsSplitChar`: split a char list at every separator. -/
def splitCharAux (sep : Char) : List Char → List Char → List String
  | [], acc => [String.mk acc.reverse]
  | c :: rest, acc =>
    if c = sep then String.mk acc.reverse :: splitCharAux sep rest []
    else splitCharAux sep rest (c :: acc)

/-- JS `s.split(sep)` for a single-character separator. -/
def jsSplitChar (sep : Char) (s : String) : List String :=
  splitCharAux sep s.data []

/-- JS `s.includes(c)` for a single character. -/
def jsContainsChar (s : String) (c : Char) : Bool :=
  s.data.contains c

/-- Auxiliary: does `pat` occur as a contiguous run inside `l`? -/
def listContains (pat : List Char) : List Char → Bool
  | [] => pat.isEmpty
  | x :: xs => pat.isPrefixOf (x :: xs) || listContains pat xs

/-- JS `message.includes(pat)` (substring containment). -/
def jsIncludes (s pat : String) : Bool :=
  listContains pat.data s.data

/-! ## TimeParser — `parseTimeToSeconds` (`src/lib/parse.ts`) -/

instance {ε α : Type} [DecidableEq ε] [DecidableEq α] : DecidableEq (Except ε α) := fun a b =>
  match a, b with
  | .ok x, .ok y => if h : x = y then .isTrue (by rw [h]) else .isFalse (by simp [h])
  | .error x, .error y => if h : x = y then .isTrue (by rw [h]) else .isFalse (by simp [h])
  | .ok _, .error _ => .isFalse (by simp)
  | .error _, .ok _ => .isFalse (by simp)

/-- The union argument type `string | number` of `parseTimeToSeconds`.
Numeric input is modelled as `Int`: the only numeric check in the source is
`!Number.isInteger(input) || input < 0`, and non-integer numeric input is not
representable in this integer model (it would be rejected by the source). -/
inductive TimeInput where
  | num (n : Int) : TimeInput
  | str (s : String) : TimeInput

/-- Check applied to each colon-separated part of the time string, with its
index and the total number of parts (body of the `parts.map` callback in the
source). -/
def parseTimePart (part : String) (index numParts : Nat) : Except String Int :=
  match jsParseInt part with
  | none => .error ("Invalid time component: \"" ++ part ++ "\"")
  | some num =>
    if num < 0 then
      .error ("Invalid time component: \"" ++ part ++ "\"")
    else if index > 0 && num ≥ 60 then
      .error s!"Minutes and seconds must be less than 60, got: {num}"
    else if index = 0 && numParts = 2 && num > 1440 then
      .error s!"Minutes cannot exceed 1440 (24 hours), got: {num}"
    else
      .ok num

/-- `parseTimeToSeconds` from `src/lib/parse.ts`: parses `"123"`, `"mm:ss"`
or `"hh:mm:ss"` (or a plain number) into seconds, throwing (here: `.error`)
on malformed input.  The thrown messages are carried verbatim. -/
def parseTimeToSeconds : TimeInput → Except String Int
  | .num n =>
    -- `!Number.isInteger(input) || input < 0`
    if n < 0 then .error "Numeric input must be a non-negative integer"
    else .ok n
  | .str s =>
    let trimmed := jsTrim s
    if trimmed = "" then .error "Time input cannot be empty"
    else if trimmed.data.all Char.isDigit then
      -- `/^\d+$/` matched: `parseInt` of an all-digit string is its value
      let seconds : Int := natOfDigits trimmed.data
      if seconds < 0 then .error "Time cannot be negative"
      else .ok seconds
    else if !(jsContainsChar trimmed ':') then
      .error "Use format: seconds (123), mm:ss (12:34), or hh:mm:ss (1:23:45)"
    else
      let parts := jsSplitChar ':' trimmed
      match parts with
      | [p0, p1] => do
        let m ← parseTimePart p0 0 2
        let sec ← parseTimePart p1 1 2
        let totalSeconds := m * 60 + sec
        if totalSeconds > 86400 then .error "Time cannot exceed 24 hours"
        else .ok totalSeconds
      | [p0, p1, p2] => do
        let h ← parseTimePart p0 0 3
        let m ← parseTimePart p1 1 3
        let sec ← parseTimePart p2 2 3
        let totalSeconds := h * 3600 + m * 60 + sec
        if totalSeconds > 86400 then .error "Time cannot exceed 24 hours"
        else .ok totalSeconds
      | _ => .error "Use format: mm:ss or hh:mm:ss"


/-! ## ClipTimingValidator (`src/lib/title-override.ts`) -/

/-- Severity levels `'low' | 'medium' | 'high'`. -/
inductive Severity where
  | low : Severity
  | medium : Severity
  | high : Severity
deriving DecidableEq, Repr

/-- Numeric rank for the severity precedence low < medium < high. -/
def Severity.rank : Severity → Nat
  | .low => 0
  | .medium => 1
  | .high => 2

/-- Maximum of two severities under the precedence high > medium > low. -/
def Severity.max (a b : Severity) : Severity :=
  if b.rank ≤ a.rank then a else b

/-- The `ClipTimeData` interface.  Times are JS numbers used as integers. -/
structure ClipTimeData where
  id : String
  startTimeSeconds : Int
  endTimeSeconds : Int
  episode : Option String := none
  title : Option String := none

/-- The `ClipValidationResult` interface. -/
structure ClipValidationResult where
  isValid : Bool
  issues : List String
  severity : Severity
  suggestedAction : String
deriving DecidableEq, Repr

/-- `detectSuspiciousTimePatterns` from `src/lib/title-override.ts`: flags
start/end values that look like minutes mis-multiplied by 3600 instead of 60.
The guards keep both operands positive, where Lean's `Int` `/` and `%` agree
with JS `Math.floor(x/y)` and `x % y`. -/
def detectSuspiciousTimePatterns (startSec endSec : Int) : List String :=
  let startPat : List String :=
    if startSec > 7200 then
      let possibleMinutes := startSec / 3600
      let remainder := startSec % 3600
      if remainder < 60 ∧ possibleMinutes < 90 then
        [s!"Start time might be incorrectly converted: {startSec}s could be {possibleMinutes}:{padStart2 (toString remainder)} ({possibleMinutes}m {remainder}s)"]
      else []
    else []
  let endPat : List String :=
    if endSec > 7200 then
      let possibleMinutes := endSec / 3600
      let remainder := endSec % 3600
      if remainder < 60 ∧ possibleMinutes < 90 then
        [s!"End time might be incorrectly converted: {endSec}s could be {possibleMinutes}:{padStart2 (toString remainder)} ({possibleMinutes}m {remainder}s)"]
      else []
    else []
  startPat ++ endPat

/-- `validateClipTiming` from `src/lib/title-override.ts`.  The six checks run
in source order, each appending its issue text and assigning `severity`
exactly as the imperative code does (checks 1-5 overwrite the variable,
check 6 upgrades `low` to `medium`). -/
def validateClipTiming (clip : ClipTimeData) : ClipValidationResult :=
  let start := clip.startTimeSeconds
  let stop := clip.endTimeSeconds
  let duration := stop - start
  -- Check 1: negative duration
  let p1 : List String × Severity :=
    if duration < 0 then
      ([s!"Negative duration: End time ({stop}s) is before start time ({start}s)"], Severity.high)
    else ([], Severity.low)
  -- Check 2: zero duration
  let p2 :=
    if duration = 0 then
      (p1.1 ++ ["Zero duration: Start and end times are identical"], Severity.medium)
    else p1
  -- Check 3: extremely long clips
  let p3 :=
    if duration > 1800 then
      let durationMinutes := duration / 60
      (p2.1 ++ [s!"Unusually long clip: {durationMinutes} minutes (typical testimonies are 1-10 minutes)"], Severity.high)
    else p2
  -- Check 4: very short clips
  let p4 :=
    if duration > 0 ∧ duration < 30 then
      (p3.1 ++ [s!"Very short clip: {duration} seconds (might be too brief for a testimony)"], Severity.low)
    else p3
  -- Check 5: unrealistic start times
  let p5 :=
    if start > 14400 then
      let startHours := start / 3600
      let startMinutes := (start % 3600) / 60
      (p4.1 ++ [s!"Very late start time: {startHours}h {startMinutes}m into video (might be conversion error)"], Severity.high)
    else p4
  -- Check 6: suspected unit-conversion patterns
  let suspiciousPatterns := detectSuspiciousTimePatterns start stop
  let p6 :=
    if suspiciousPatterns.length > 0 then
      (p5.1 ++ suspiciousPatterns, if p5.2 = Severity.low then Severity.medium else p5.2)
    else p5
  let isValid := p6.1.length = 0
  let suggestedAction :=
    if p6.2 = Severity.high then "Review immediately - likely data corruption"
    else if p6.2 = Severity.medium then "Review when convenient - unusual but might be valid"
    else "No action needed"
  { isValid := isValid, issues := p6.1, severity := p6.2, suggestedAction := suggestedAction }

/-- Spec-side notion for claim C7: the severities of the checks that trigger
on a clip, in check order (high, medium, high, low, high for checks 1-5, and
medium for the unit-conversion pattern check). -/
def checkSeverities (clip : ClipTimeData) : List Severity :=
  let d := clip.endTimeSeconds - clip.startTimeSeconds
  (if d < 0 then [Severity.high] else []) ++
  (if d = 0 then [Severity.medium] else []) ++
  (if d > 1800 then [Severity.high] else []) ++
  (if d > 0 ∧ d < 30 then [Severity.low] else []) ++
  (if clip.startTimeSeconds > 14400 then [Severity.high] else []) ++
  (if (detectSuspiciousTimePatterns clip.startTimeSeconds clip.endTimeSeconds).length > 0 then
    [Severity.medium] else [])

/-- Spec-side notion for claim C7: maximum severity of a list of triggered
checks, defaulting to `low` when none trigger. -/
def maxSeverity (l : List Severity) : Severity :=
  l.foldl Severity.max Severity.low

/-- Spec-side notion for claim C7: the suggested action as a function of the
final severity alone. -/
def actionForSeverity (s : Severity) : String :=
  if s = Severity.high then "Review immediately - likely data corruption"
  else if s = Severity.medium then "Review when convenient - unusual but might be valid"
  else "No action needed"

/-! ## Cursor codec (`src/routes/process-video.js`, clips router) -/

/-- The two cursor shapes of §3 of the spec (used to state round-trip and
shape claims; the code itself works on untyped JSON values). -/
inductive Cursor where
  | recent (serviceDate : String) (createdAtMs : Int) : Cursor
  | mostSaved (savedCount : Int) (createdAtMs : Int) : Cursor
deriving DecidableEq, Repr

/-- The JSON value a cursor record denotes (the object literal the route
passes to `encodeCursor`). -/
def Cursor.toJson : Cursor → Json
  | .recent serviceDate createdAtMs =>
    .obj [("serviceDate", .str serviceDate), ("createdAtMs", .num createdAtMs)]
  | .mostSaved savedCount createdAtMs =>
    .obj [("savedCount", .num savedCount), ("createdAtMs", .num createdAtMs)]

/-- `encodeCursor(obj)`: `Buffer.from(JSON.stringify(obj)).toString("base64url")`.
At the JSON-value level of this model the encoded payload is the value
itself; the text serialization is the Node builtin layer (JSON.stringify /
base64url), which is injective with `JSON.parse` / base64url-decode as its
inverse. -/
def encodeCursor (obj : Json) : Json := obj

/-- The structural validation `decodeCursor` runs on the value obtained from
`JSON.parse` (lines 98-118 of the route): reject non-objects and `null`;
accept when the object carries `serviceDate`/`createdAtMs` of types
string/number, else when it carries `savedCount`/`createdAtMs` of types
number/number; return the decoded value itself.  Absent input and text that
fails base64/JSON parsing are already `null` before this check and are
modelled by not invoking it (`Option.bind` at the call site). -/
def decodeCursorVal (j : Json) : Option Json :=
  match j with
  | .null => none
  | .obj _ | .arr _ =>
    if j.hasKey "serviceDate" && j.hasKey "createdAtMs" then
      if j.fieldIsString "serviceDate" && j.fieldIsNumber "createdAtMs" then some j else none
    else if j.hasKey "savedCount" && j.hasKey "createdAtMs" then
      if j.fieldIsNumber "savedCount" && j.fieldIsNumber "createdAtMs" then some j else none
    else none
  | _ => none

/-! ## Month ranges (`parseMonthRange`) -/

/-- Result of `parseMonthRange`; the source field `end` is a reserved word in
Lean and is modelled as `stop`. -/
structure MonthRange where
  start : String
  stop : String
deriving DecidableEq, Repr

/-- Gregorian leap-year rule, as implemented by the JS `Date` object. -/
def isLeapYear (y : Nat) : Bool :=
  (y % 4 = 0 && y % 100 ≠ 0) || y % 400 = 0

/-- Number of days in a month, as computed by `new Date(Date.UTC(year,
monthNum, 0))` (day zero of the following month). -/
def daysInMonth (y m : Nat) : Nat :=
  if m = 2 then (if isLeapYear y then 29 else 28)
  else if m = 4 || m = 6 || m = 9 || m = 11 then 30
  else 31

/-- Zero-padded two-digit decimal rendering, as in the `toISOString` date
slice. -/
def pad2 (n : Nat) : String :=
  if n < 10 then "0" ++ toString n else toString n

/-- `parseMonthRange(month)` from the clips route: require the
`/^\d{4}-\d{2}$/` shape, parse year and month (the source splits on `"-"`
and `parseInt`s the two parts, which on this shape is exactly their decimal
value), bound-check them and return the ISO day range of the month.
`iso(d) = d.toISOString().slice(0, 10)` renders `YYYY-MM-DD` zero-padded,
and years are confined to 2000..2100 so the year is always four digits. -/
def parseMonthRange (month : String) : Option MonthRange :=
  match month.data with
  | [y1, y2, y3, y4, dash, m1, m2] =>
    if y1.isDigit && y2.isDigit && y3.isDigit && y4.isDigit && dash = '-'
        && m1.isDigit && m2.isDigit then
      let year := natOfDigits [y1, y2, y3, y4]
      let monthNum := natOfDigits [m1, m2]
      if monthNum < 1 || monthNum > 12 || year < 2000 || year > 2100 then none
      else
        some { start := toString year ++ "-" ++ pad2 monthNum ++ "-01",
               stop := toString year ++ "-" ++ pad2 monthNum ++ "-"
                 ++ pad2 (daysInMonth year monthNum) }
    else none
  | _ => none

/-! ## Query normalization (`validateQueryParams`) -/

/-- Sort modes. Any raw value other than `"mostSaved"`/`"recent"` falls back
to recent. -/
inductive SortMode where
  | recent : SortMode
  | mostSaved : SortMode
deriving DecidableEq, Repr

/-- JS `x?.trim() || undefined`: a missing parameter stays missing, and a
parameter that trims to the empty string becomes missing. -/
def jsOrUndef (x : Option String) : Option String :=
  match x with
  | some s => let t := jsTrim s; if t = "" then none else some t
  | none => none

/-- JS `x || dflt` on an optional number: `0` is falsy and also falls back. -/
def jsOrNum (x : Option Int) (dflt : Int) : Int :=
  match x with
  | some v => if v = 0 then dflt else v
  | none => dflt

/-- Raw request query parameters of `GET /api/clips`.  All are optional
strings; `cursor` is the value-level result of running base64url decoding
and `JSON.parse` on the raw cursor text (`none` both when the parameter is
absent and when that parsing throws, which `decodeCursor` catches and turns
into `null`). -/
structure RawQuery where
  categoryId : Option String := none
  month : Option String := none
  year : Option String := none
  episode : Option String := none
  sort : Option String := none
  limit : Option String := none
  cursor : Option Json := none

/-- Normalized query produced by `validateQueryParams`. -/
structure NormQuery where
  categoryId : Option String
  month : Option String
  episode : Option String
  sort : SortMode
  limit : Nat
  cursor : Option Json

/-- `validateQueryParams(query)` from the clips route: trims and defaults the
parameters, decodes the cursor, combines `year`/`month` (a bare month gets
the current calendar year, passed here as `currentYear`), and throws
(`.error`, message verbatim) on invalid month format, category id, or
episode number. -/
def combineMonth (currentYear : Int) (yearValue monthValue : Option String) : Option String :=
  match yearValue, monthValue with
  | some y, some m => some (y ++ "-" ++ m)
  | none, some m => some (toString currentYear ++ "-" ++ m)
  | _, none => none

/-- The month-format check of `validateQueryParams`:
`if (month && !parseMonthRange(month)) throw ...`.  The combined month string
always contains a dash, hence is truthy whenever present.  Returns the thrown
message, `none` when the check passes. -/
def monthErrorOf (month : Option String) : Option String :=
  match month with
  | some m =>
    if (parseMonthRange m).isNone then
      some ("Invalid month format: " ++ m ++ ". Expected YYYY-MM format.")
    else none
  | none => none

/-- The category-id check of `validateQueryParams`:
`if (categoryId && (categoryId.length > 100 || /[<>"']/.test(categoryId)))
throw ...`.  Returns the thrown message, `none` when the check passes. -/
def categoryErrorOf (categoryId : Option String) : Option String :=
  match categoryId with
  | some c =>
    if c.length > 100
        || c.data.any (fun ch => ch = '<' || ch = '>' || ch = Char.ofNat 34 || ch = Char.ofNat 39) then
      some "Invalid categoryId format"
    else none
  | none => none

def validateQueryParams (currentYear : Int) (raw : RawQuery) : Except String NormQuery :=
  let categoryId := jsOrUndef raw.categoryId
  let monthValue := jsOrUndef raw.month
  let yearValue := jsOrUndef raw.year
  let episodeValue := jsOrUndef raw.episode
  let sort : SortMode :=
    match raw.sort.map jsTrim with
    | some "mostSaved" => .mostSaved
    | some "recent" => .recent
    | _ => .recent
  -- `const parsedLimit = limitParam ? parseInt(limitParam, 10) : 20`
  let parsedLimit : Option Int :=
    match raw.limit.map jsTrim with
    | some t => if t = "" then some 20 else jsParseInt t
    | none => some 20
  -- `isNaN(parsedLimit) ? 20 : Math.min(Math.max(1, parsedLimit), 50)`
  let limit : Nat :=
    match parsedLimit with
    | none => 20
    | some p => (min (max 1 p) 50).toNat
  let cursor := raw.cursor.bind decodeCursorVal
  let month : Option String := combineMonth currentYear yearValue monthValue
  match monthErrorOf month with
  | some e => .error e
  | none =>
    match categoryErrorOf categoryId with
    | some e => .error e
    | none =>
      match episodeValue with
      | some e =>
        match jsParseInt e with
        | some n =>
          if n > 0 ∧ n < 10000 then
            .ok { categoryId := categoryId, month := month, episode := some e,
                  sort := sort, limit := limit, cursor := cursor }
          else .error "Invalid episode number format"
        | none => .error "Invalid episode number format"
      | none =>
        .ok { categoryId := categoryId, month := month, episode := none,
              sort := sort, limit := limit, cursor := cursor }

/-- Error-to-status classification in the route's `catch` block (lines
414-429): substring inspection of the thrown message. -/
def classifyErrorStatus (message : String) : Nat :=
  if jsIncludes message "Invalid month format" || jsIncludes message "Invalid categoryId" then 400
  else if jsIncludes message "index" then 503
  else if jsIncludes message "permission" then 403
  else if jsIncludes message "quota" || jsIncludes message "rate" then 429
  else 500

/-! ## Listing pipeline (`router.get('/')` of the clips route) -/

/-- A stored clip document (the fields of the Firestore document that the
listing pipeline reads; `createdAt` is the Firestore `Timestamp`, carried as
its `toMillis()` value). -/
structure Doc where
  id : String
  categoryId : Option String := none
  serviceDate : Option String := none
  episode : Option String := none
  savedCount : Option Int := none
  createdAt : Option Int := none

/-- The listing DTO fields the filters, sort and claims read (built by the
`snapshot.docs.map` callback). -/
structure Item where
  id : String
  serviceDate : String
  savedCount : Int
  episode : String
deriving DecidableEq, Repr

/-- The DTO mapping: `serviceDate: data.serviceDate || ""`,
`savedCount: data.savedCount || 0`, `episode: data.episode || ""`.  The JS
`||` fallbacks coincide with `getD` here because the fallback values are the
falsy values of the field types themselves. -/
def toItem (d : Doc) : Item :=
  { id := d.id,
    serviceDate := d.serviceDate.getD "",
    savedCount := d.savedCount.getD 0,
    episode := d.episode.getD "" }

/-- Duplicate removal by `id` keeping first occurrences (the `seenIds`
filter). -/
def dedupeById (items : List Item) : List Item :=
  go [] items
where
  go (seen : List String) : List Item → List Item
  | [] => []
  | it :: rest =>
    if seen.contains it.id then go seen rest
    else it :: go (it.id :: seen) rest

/-- The episode part of the post-fetch filter callback:
`itemEpisodeNumber = item.episode ? item.episode.match(/\d+/)?.[0] : null`
followed by strict equality `itemEpisodeNumber === episode`; when no episode
filter is active the callback falls through to `return true`. -/
def episodeFilterPart (episodeQ : Option String) (it : Item) : Bool :=
  match episodeQ with
  | some e =>
    if e ≠ "" then
      (if it.episode ≠ "" then firstDigitRun it.episode else none) == some e
    else true
  | none => true

/-- The post-fetch month/episode filter callback (lines 291-308): with an
active month filter, an item whose `serviceDate` is non-empty is kept iff the
date lies in the month's inclusive day range; when `monthRange` is `null` or
`item.serviceDate` is empty the callback falls through to the episode
check / `return true`. -/
def passesFilter (month episodeQ : Option String) (it : Item) : Bool :=
  let epPart := episodeFilterPart episodeQ it
  match month with
  | some m =>
    if m ≠ "" then
      match parseMonthRange m with
      | some r =>
        if it.serviceDate ≠ "" then
          strLe r.start it.serviceDate && strLe it.serviceDate r.stop
        else epPart
      | none => epPart
    else epPart
  | none => epPart

/-- `getEpisodeNumber` of the sort comparator: numeric value of the first
digit run of the episode label, `0` when there is none. -/
def getEpisodeNumber (ep : String) : Int :=
  match firstDigitRun ep with
  | some ds => (natOfDigits ds.data : Int)
  | none => 0

/-- Insertion step of the stable descending sort. -/
def insertByEpisodeDesc (a : Item) : List Item → List Item
  | [] => [a]
  | b :: rest =>
    if getEpisodeNumber a.episode ≥ getEpisodeNumber b.episode then a :: b :: rest
    else b :: insertByEpisodeDesc a rest

/-- `items.sort((a, b) => bNum - aNum)`: stable sort by episode number
descending (`Array.prototype.sort` is stable). -/
def sortByEpisodeDesc : List Item → List Item
  | [] => []
  | a :: rest => insertByEpisodeDesc a (sortByEpisodeDesc rest)

/-- Response payload of the listing endpoint (`items`, `nextCursor`, and the
`meta` fields the claims are about). -/
structure Page where
  items : List Item
  nextCursor : Option Json
  count : Nat
  hasMore : Bool

/-- The listing pipeline of `router.get('/')` (lines 228-359), from the
normalized query to the response payload: optional category equality filter,
fetch cap (`1000` for category requests, `limit` otherwise, applied to the
storage read order), DTO mapping, dedup, post-fetch month/episode filter,
stable episode-descending sort, slicing for non-category requests, and
next-cursor emission from the last *fetched* document.  `nowMs` models
`Date.now()` (the fallback when the last document has no usable
`createdAt`).  Note that `q.cursor` is not read anywhere: the route decodes
the cursor but never applies it to the storage query. -/
def listClips (storage : List Doc) (nowMs : Int) (q : NormQuery) : Page :=
  let base :=
    match q.categoryId with
    | some c => storage.filter (fun (d : Doc) => d.categoryId == some c)
    | none => storage
  let fetchLimit : Nat :=
    match q.categoryId with
    | some _ => 1000
    | none => q.limit
  let docs := base.take fetchLimit
  let mapped := docs.map toItem
  let deduped := dedupeById mapped
  let filtered := deduped.filter (passesFilter q.month q.episode)
  let sorted := sortByEpisodeDesc filtered
  let items :=
    match q.categoryId with
    | some _ => sorted
    | none => sorted.take q.limit
  let nextCursor : Option Json :=
    match q.categoryId with
    | some _ => none
    | none =>
      -- `items.length === limit && snapshot.docs.length > 0`
      if items.length = q.limit then
        match docs.getLast? with
        | some lastDoc =>
          -- `lastData.createdAt?.toMillis?.() || Date.now()`
          let createdAtMs := jsOrNum lastDoc.createdAt nowMs
          match q.sort with
          | .mostSaved =>
            some (encodeCursor (.obj [("savedCount", .num (lastDoc.savedCount.getD 0)),
                                      ("createdAtMs", .num createdAtMs)]))
          | .recent =>
            some (encodeCursor (.obj [("serviceDate", .str (lastDoc.serviceDate.getD "")),
                                      ("createdAtMs", .num createdAtMs)]))
        | none => none
      else none
  { items := items, nextCursor := nextCursor,
    count := items.length, hasMore := nextCursor.isSome }

/-- The request path of the listing endpoint relevant to the claims:
parameter validation followed by the listing pipeline; a thrown validation
error propagates to the catch block (and from there to
`classifyErrorStatus`). -/
def handleClips (storage : List Doc) (currentYear : Int) (nowMs : Int)
    (raw : RawQuery) : Except String Page :=
  (validateQueryParams currentYear raw).map (listClips storage nowMs)

/-- Spec-side reading of a decoded cursor JSON value back into a cursor
record (§3 of the spec): a `serviceDate`-string / `createdAtMs`-number pair
denotes a Recent cursor, otherwise a `savedCount`-number / `createdAtMs`-
number pair denotes a MostSaved cursor. -/
def cursorOfJson (j : Json) : Option Cursor :=
  match j.getField "serviceDate", j.getField "createdAtMs" with
  | some (.str sd), some (.num ms) => some (.recent sd ms)
  | _, _ =>
    match j.getField "savedCount", j.getField "createdAtMs" with
    | some (.num sc), some (.num ms) => some (.mostSaved sc ms)
    | _, _ => none

/-! ## Helper lemmas -/

theorem mem_insertByEpisodeDesc {a b : Item} {l : List Item} :
    a ∈ insertByEpisodeDesc b l ↔ a = b ∨ a ∈ l := by
  induction l with
  | nil => simp [insertByEpisodeDesc]
  | cons c rest ih =>
    simp only [insertByEpisodeDesc]
    split
    · simp [List.mem_cons]
    · simp only [List.mem_cons, ih]
      tauto

theorem mem_sortByEpisodeDesc {a : Item} {l : List Item} :
    a ∈ sortByEpisodeDesc l ↔ a ∈ l := by
  induction l with
  | nil => simp [sortByEpisodeDesc]
  | cons b rest ih =>
    simp [sortByEpisodeDesc, mem_insertByEpisodeDesc, ih]

theorem isPrefixOf_append_self (p t : List Char) : p.isPrefixOf (p ++ t) = true := by
  induction p with
  | nil => simp [List.isPrefixOf]
  | cons c cs ih => simp [List.isPrefixOf, ih]

theorem listContains_append_self (p t : List Char) : listContains p (p ++ t) = true := by
  cases hp : p ++ t with
  | nil =>
    have : p = [] := by
      cases p with
      | nil => rfl
      | cons c cs => simp at hp
    simp [listContains, this]
  | cons x xs =>
    simp only [listContains]
    rw [← hp, isPrefixOf_append_self]
    simp

theorem jsIncludes_month_head (m : String) :
    jsIncludes ("Invalid month format: " ++ m ++ ". Expected YYYY-MM format.")
      "Invalid month format" = true := by
  have h : ("Invalid month format: " ++ m ++ ". Expected YYYY-MM format.").data
      = "Invalid month format".data
        ++ (": ".data ++ m.data ++ ". Expected YYYY-MM format.".data) := by
    simp [String.data_append]
  rw [jsIncludes, h, listContains_append_self]

theorem hasKey_obj_iff (fields : List (String × Json)) (k : String) :
    (Json.obj fields).hasKey k = true ↔ ∃ j, fields.lookup k = some j := by
  simp only [Json.hasKey, Json.getField]
  cases h : fields.lookup k <;> simp

theorem fieldIsString_obj_iff (fields : List (String × Json)) (k : String) :
    (Json.obj fields).fieldIsString k = true ↔ ∃ s, fields.lookup k = some (Json.str s) := by
  simp only [Json.fieldIsString, Json.getField]
  cases h : fields.lookup k with
  | none => simp
  | some j => cases j <;> simp

theorem fieldIsNumber_obj_iff (fields : List (String × Json)) (k : String) :
    (Json.obj fields).fieldIsNumber k = true ↔ ∃ n, fields.lookup k = some (Json.num n) := by
  simp only [Json.fieldIsNumber, Json.getField]
  cases h : fields.lookup k with
  | none => simp
  | some j => cases j <;> simp

theorem monthErrorOf_eq_some {month : Option String} {e : String}
    (h : monthErrorOf month = some e) :
    ∃ m, e = "Invalid month format: " ++ m ++ ". Expected YYYY-MM format." := by
  unfold monthErrorOf at h
  split at h
  · rename_i m
    split at h
    · exact ⟨m, (Option.some.injEq _ _ ▸ h).symm⟩
    · exact Option.noConfusion h
  · exact Option.noConfusion h

theorem categoryErrorOf_eq_some {c : Option String} {e : String}
    (h : categoryErrorOf c = some e) : e = "Invalid categoryId format" := by
  unfold categoryErrorOf at h
  split at h
  · split at h
    · exact ((Option.some.injEq _ _).mp h).symm
    · exact Option.noConfusion h
  · exact Option.noConfusion h

/-! ## Claim theorems -/

/-- C1 (code bug witness): the route decodes the `cursor` parameter but never
applies it to the storage query, so requesting page 1 (limit 1 over a
two-clip store) and then requesting again with the returned `nextCursor`
yields the very same page — the two pages' item ids are identical, not
disjoint as the documented cursor pagination promises. -/
theorem clips_second_page_with_cursor_repeats_first :
    handleClips
        [{ id := "a", serviceDate := some "2025-01-01", episode := some "EP002", createdAt := some 100 },
         { id := "b", serviceDate := some "2025-01-02", episode := some "EP001", createdAt := some 200 }]
        2025 999 { limit := some "1" }
      = .ok { items := [{ id := "a", serviceDate := "2025-01-01", savedCount := 0, episode := "EP002" }],
              nextCursor := some (.obj [("serviceDate", .str "2025-01-01"), ("createdAtMs", .num 100)]),
              count := 1, hasMore := true } ∧
    handleClips
        [{ id := "a", serviceDate := some "2025-01-01", episode := some "EP002", createdAt := some 100 },
         { id := "b", serviceDate := some "2025-01-02", episode := some "EP001", createdAt := some 200 }]
        2025 999
        { limit := some "1",
          cursor := some (.obj [("serviceDate", .str "2025-01-01"), ("createdAtMs", .num 100)]) }
      = .ok { items := [{ id := "a", serviceDate := "2025-01-01", savedCount := 0, episode := "EP002" }],
              nextCursor := some (.obj [("serviceDate", .str "2025-01-01"), ("createdAtMs", .num 100)]),
              count := 1, hasMore := true } :=
  ⟨rfl, rfl⟩

/-- C2 (counterexample): the decode validation checks only field membership,
not exactness — an object carrying an extra field beyond the Recent pair is
returned unchanged rather than rejected, and a cursor of the MostSaved shape
presented while the active sort is `recent` is likewise accepted (the decoder
never consults the sort). -/
theorem decodeCursor_accepts_extra_fields_and_ignores_sort :
    decodeCursorVal (.obj [("serviceDate", .str "2025-01-01"), ("createdAtMs", .num 5),
                           ("extra", .num 7)])
      = some (.obj [("serviceDate", .str "2025-01-01"), ("createdAtMs", .num 5),
                    ("extra", .num 7)]) ∧
    validateQueryParams 2025 { cursor := some (.obj [("savedCount", .num 3), ("createdAtMs", .num 5)]) }
      = .ok { categoryId := none, month := none, episode := none, sort := .recent, limit := 20,
              cursor := some (.obj [("savedCount", .num 3), ("createdAtMs", .num 5)]) } :=
  ⟨rfl, rfl⟩

/-- C2 (amended): `decodeCursor` yields a non-null value exactly when the
decoded JSON object *contains* a `serviceDate`-string plus `createdAtMs`-
number pair, or contains no `serviceDate` key at all but a
`savedCount`-number plus `createdAtMs`-number pair; extra fields are
permitted, and the active sort mode is never consulted.  All non-object
values are rejected. -/
theorem decodeCursorVal_shape_characterization :
    (∀ fields : List (String × Json),
      (decodeCursorVal (Json.obj fields)).isSome = true ↔
        ((∃ s, fields.lookup "serviceDate" = some (Json.str s)) ∧
         (∃ n, fields.lookup "createdAtMs" = some (Json.num n))) ∨
        (fields.lookup "serviceDate" = none ∧
         (∃ n, fields.lookup "savedCount" = some (Json.num n)) ∧
         (∃ n, fields.lookup "createdAtMs" = some (Json.num n)))) ∧
    decodeCursorVal Json.null = none ∧
    (∀ b, decodeCursorVal (Json.bool b) = none) ∧
    (∀ n, decodeCursorVal (Json.num n) = none) ∧
    (∀ s, decodeCursorVal (Json.str s) = none) ∧
    (∀ l, decodeCursorVal (Json.arr l) = none) := by
  refine ⟨?_, rfl, fun b => rfl, fun n => rfl, fun s => rfl, fun l => rfl⟩
  intro fields
  simp only [decodeCursorVal]
  split_ifs with hA hB hC hD
  · rw [Bool.and_eq_true] at hB
    rw [fieldIsString_obj_iff] at hB
    rw [fieldIsNumber_obj_iff] at hB
    simp only [Option.isSome_some, true_iff]
    exact Or.inl ⟨hB.1, hB.2⟩
  · refine iff_of_false (by simp) ?_
    rintro (⟨⟨s, hs⟩, ⟨n, hn⟩⟩ | ⟨hs, _, _⟩)
    · exact hB (by
        rw [Bool.and_eq_true, fieldIsString_obj_iff, fieldIsNumber_obj_iff]
        exact ⟨⟨s, hs⟩, ⟨n, hn⟩⟩)
    · rw [Bool.and_eq_true, hasKey_obj_iff, hasKey_obj_iff] at hA
      rcases hA.1 with ⟨j, hj⟩
      rw [hs] at hj
      exact Option.noConfusion hj
  · rw [Bool.and_eq_true] at hD
    rw [fieldIsNumber_obj_iff] at hD
    rw [fieldIsNumber_obj_iff] at hD
    rw [Bool.and_eq_true, hasKey_obj_iff, hasKey_obj_iff] at hC
    simp only [Option.isSome_some, true_iff]
    refine Or.inr ⟨?_, hD.1, hD.2⟩
    cases hs : fields.lookup "serviceDate" with
    | none => rfl
    | some j =>
      exfalso
      apply hA
      rw [Bool.and_eq_true, hasKey_obj_iff, hasKey_obj_iff]
      exact ⟨⟨j, hs⟩, hC.2⟩
  · refine iff_of_false (by simp) ?_
    rintro (⟨⟨s, hs⟩, ⟨n, hn⟩⟩ | ⟨hs, ⟨n1, hn1⟩, ⟨n2, hn2⟩⟩)
    · apply hA
      rw [Bool.and_eq_true, hasKey_obj_iff, hasKey_obj_iff]
      exact ⟨⟨_, hs⟩, ⟨_, hn⟩⟩
    · apply hD
      rw [Bool.and_eq_true, fieldIsNumber_obj_iff, fieldIsNumber_obj_iff]
      exact ⟨⟨n1, hn1⟩, ⟨n2, hn2⟩⟩
  · refine iff_of_false (by simp) ?_
    rintro (⟨⟨s, hs⟩, ⟨n, hn⟩⟩ | ⟨hs, ⟨n1, hn1⟩, ⟨n2, hn2⟩⟩)
    · apply hA
      rw [Bool.and_eq_true, hasKey_obj_iff, hasKey_obj_iff]
      exact ⟨⟨_, hs⟩, ⟨_, hn⟩⟩
    · apply hC
      rw [Bool.and_eq_true, hasKey_obj_iff, hasKey_obj_iff]
      exact ⟨⟨_, hn1⟩, ⟨_, hn2⟩⟩

/-- C3: for every valid cursor record of either closed shape, encoding to the
wire format and decoding returns the same record: the decode validation
accepts the encoded value unchanged, and reading its fields back recovers the
original record. -/
theorem decode_encode_cursor_roundtrip (c : Cursor) :
    (decodeCursorVal (encodeCursor c.toJson)).bind cursorOfJson = some c := by
  cases c <;> rfl

/-- C4 (counterexample): with an active month filter `2025-02`, a stored
record with no `serviceDate` at all is returned in the page (the filter
callback falls through to `return true` when `item.serviceDate` is empty),
so it is not the case that every returned item has a non-empty in-range
service date. -/
theorem month_filter_passes_record_without_serviceDate :
    handleClips [{ id := "x", episode := some "EP001" }] 2025 999
        { month := some "02", year := some "2025" }
      = .ok { items := [{ id := "x", serviceDate := "", savedCount := 0, episode := "EP001" }],
              nextCursor := none, count := 1, hasMore := false } := rfl

/-- C4 (amended): with an active month filter, every returned item whose
`serviceDate` is non-empty lies within the inclusive first-day..last-day
range of the requested month; a record with an empty/missing `serviceDate`
is not excluded by the month filter (it falls through to the episode
check). -/
theorem listClips_month_filter_bounds
    (storage : List Doc) (nowMs : Int) (q : NormQuery) (m : String) (r : MonthRange) (it : Item)
    (hm : q.month = some m) (hr : parseMonthRange m = some r)
    (hit : it ∈ (listClips storage nowMs q).items) (hsd : it.serviceDate ≠ "") :
    strLe r.start it.serviceDate = true ∧ strLe it.serviceDate r.stop = true := by
  have hmne : m ≠ "" := by
    intro he
    rw [he] at hr
    rw [(by decide : parseMonthRange "" = none)] at hr
    exact Option.noConfusion hr
  have hp : passesFilter q.month q.episode it = true := by
    simp only [listClips] at hit
    cases hq : q.categoryId with
    | none =>
      rw [hq] at hit
      have h1 : it ∈ sortByEpisodeDesc ((dedupeById ((storage.take q.limit).map toItem)).filter
          (passesFilter q.month q.episode)) := (List.take_sublist _ _).subset hit
      rw [mem_sortByEpisodeDesc] at h1
      exact (List.mem_filter.mp h1).2
    | some c =>
      rw [hq] at hit
      rw [mem_sortByEpisodeDesc] at hit
      exact (List.mem_filter.mp hit).2
  rw [hm] at hp
  simp only [passesFilter, hr] at hp
  rw [if_pos hmne, if_pos hsd, Bool.and_eq_true] at hp
  exact hp

/-- C4 (witness for the amended theorem): a concrete month-filtered listing
whose single item has service date `2025-02-10`, which the theorem places in
`["2025-02-01", "2025-02-28"]`. -/
theorem listClips_month_filter_bounds_witness :
    (({ categoryId := none, month := some "2025-02", episode := none, sort := .recent,
        limit := 20, cursor := none } : NormQuery).month = some "2025-02") ∧
    parseMonthRange "2025-02" = some { start := "2025-02-01", stop := "2025-02-28" } ∧
    ({ id := "w", serviceDate := "2025-02-10", savedCount := 0, episode := "" } : Item)
      ∈ (listClips [{ id := "w", serviceDate := some "2025-02-10" }] 0
          { categoryId := none, month := some "2025-02", episode := none, sort := .recent,
            limit := 20, cursor := none }).items ∧
    strLe "2025-02-01" "2025-02-10" = true ∧ strLe "2025-02-10" "2025-02-28" = true :=
  ⟨rfl, by decide,
   by decide,
   listClips_month_filter_bounds [{ id := "w", serviceDate := some "2025-02-10" }] 0
     { categoryId := none, month := some "2025-02", episode := none, sort := .recent,
       limit := 20, cursor := none }
     "2025-02" { start := "2025-02-01", stop := "2025-02-28" }
     { id := "w", serviceDate := "2025-02-10", savedCount := 0, episode := "" }
     rfl (by decide) (by decide) (by decide)⟩

/-- C5 (counterexample): the episode filter compares the first digit run of
the stored field against the requested episode string by strict string
equality, so with filter `"7"` a clip whose `episode` field is `"EP007"` is
excluded from the results (`"007" !== "7"`), not included. -/
theorem episode_filter_excludes_EP007_for_seven :
    handleClips [{ id := "e7", serviceDate := some "2025-01-01", episode := some "EP007" }]
        2025 999 { episode := some "7" }
      = .ok { items := [], nextCursor := none, count := 0, hasMore := false } := rfl

/-- C5 (amended): the episode filter keeps a clip exactly when the first
digit run extracted from its stored `episode` field equals the requested
episode string literally: `"EP007"` is excluded under filter `"7"`, while
`"EP7"` matches `"7"` and `"EP007"` matches `"007"`. -/
theorem episode_filter_matches_digit_run_literally :
    handleClips [{ id := "e7", serviceDate := some "2025-01-01", episode := some "EP007" }]
        2025 999 { episode := some "7" }
      = .ok { items := [], nextCursor := none, count := 0, hasMore := false } ∧
    handleClips [{ id := "e7b", serviceDate := some "2025-01-01", episode := some "EP7" }]
        2025 999 { episode := some "7" }
      = .ok { items := [{ id := "e7b", serviceDate := "2025-01-01", savedCount := 0, episode := "EP7" }],
              nextCursor := none, count := 1, hasMore := false } ∧
    handleClips [{ id := "e7", serviceDate := some "2025-01-01", episode := some "EP007" }]
        2025 999 { episode := some "007" }
      = .ok { items := [{ id := "e7", serviceDate := "2025-01-01", savedCount := 0, episode := "EP007" }],
              nextCursor := none, count := 1, hasMore := false } :=
  ⟨rfl, rfl, rfl⟩

/-- C6 (counterexample): a request whose `episode` is present but not a
positive integer string is rejected with the message
`Invalid episode number format`, but the route's error classifier matches
only month/categoryId messages for 400, so this validation failure is
surfaced with the generic server-error status 500, not a client error. -/
theorem episode_validation_error_gets_500 :
    validateQueryParams 2025 { episode := some "abc" } = .error "Invalid episode number format" ∧
    classifyErrorStatus "Invalid episode number format" = 500 :=
  ⟨rfl, by decide⟩

/-- C6 (amended): every error thrown by `validateQueryParams` is either a
month/categoryId validation failure, classified as client error 400 with its
specific message, or the episode validation failure, whose specific message
matches none of the classifier's substrings and is therefore surfaced with
status 500. -/
theorem validation_error_status_split (currentYear : Int) (raw : RawQuery) (e : String)
    (h : validateQueryParams currentYear raw = .error e) :
    ((jsIncludes e "Invalid month format" = true ∨ e = "Invalid categoryId format")
      ∧ classifyErrorStatus e = 400) ∨
    (e = "Invalid episode number format" ∧ classifyErrorStatus e = 500) := by
  simp only [validateQueryParams] at h
  split at h
  · rename_i e' heq
    injection h with he
    subst he
    obtain ⟨m, hm⟩ := monthErrorOf_eq_some heq
    subst hm
    refine Or.inl ⟨Or.inl (jsIncludes_month_head m), ?_⟩
    simp only [classifyErrorStatus, jsIncludes_month_head m]
    simp
  · split at h
    · rename_i e' heq
      injection h with he
      subst he
      have := categoryErrorOf_eq_some heq
      subst this
      exact Or.inl ⟨Or.inr rfl, by decide⟩
    · split at h
      · split at h
        · split at h
          · exact Except.noConfusion h
          · injection h with he
            subst he
            exact Or.inr ⟨rfl, by decide⟩
        · injection h with he
          subst he
          exact Or.inr ⟨rfl, by decide⟩
      · exact Except.noConfusion h

/-- C6 (witness for the amended theorem): the bad-episode request `episode
= "abc"` exercises the 500 branch of the classification split. -/
theorem validation_error_status_split_witness :
    validateQueryParams 2025 { episode := some "abc" } = .error "Invalid episode number format" ∧
    (((jsIncludes "Invalid episode number format" "Invalid month format" = true
        ∨ "Invalid episode number format" = "Invalid categoryId format")
      ∧ classifyErrorStatus "Invalid episode number format" = 400) ∨
     ("Invalid episode number format" = "Invalid episode number format"
      ∧ classifyErrorStatus "Invalid episode number format" = 500)) :=
  ⟨rfl, validation_error_status_split 2025 { episode := some "abc" } _ rfl⟩

/-- C7: for every clip, the final severity reported by `validateClipTiming`
is the maximum severity among the triggered checks (precedence
high > medium > low, defaulting to low when none trigger; no later check
downgrades an earlier one), and the suggested action is a function of that
final severity alone ("Review immediately" wording for high, "Review when
convenient" wording for medium, "No action needed" otherwise). -/
theorem validateClipTiming_severity_is_max (clip : ClipTimeData) :
    (validateClipTiming clip).severity = maxSeverity (checkSeverities clip) ∧
    (validateClipTiming clip).suggestedAction
      = actionForSeverity (validateClipTiming clip).severity := by
  obtain ⟨id, start, stop, ep, ti⟩ := clip
  simp only [validateClipTiming, checkSeverities, maxSeverity, actionForSeverity]
  by_cases h1 : stop - start < 0 <;>
  by_cases h2 : stop - start = 0 <;>
  by_cases h3 : stop - start > 1800 <;>
  by_cases h4 : stop - start > 0 ∧ stop - start < 30 <;>
  by_cases h5 : start > 14400 <;>
  by_cases h6 : (detectSuspiciousTimePatterns start stop).length > 0 <;>
  first
  | omega
  | (simp only [h1, h2, h3, h4, h5, h6, if_true, if_false];
     simp [Severity.max, Severity.rank])

/-- C8 (counterexample): the clip with `start = 3661, end = 3700` is *not*
flagged by `validateClipTiming`: the unit-conversion pattern check requires
the value to exceed 7200, so no issue is appended and the severity stays
low. -/
theorem no_unit_conversion_flag_at_3661 :
    validateClipTiming { id := "c", startTimeSeconds := 3661, endTimeSeconds := 3700 }
      = { isValid := true, issues := [], severity := .low,
          suggestedAction := "No action needed" } := by decide

/-- C8 (amended): the suspected unit-conversion check triggers only for
values above 7200 seconds, so `start = 3661, end = 3700` is reported clean,
while a clip such as `start = 7230, end = 7270` is flagged as a suspected
conversion error with severity escalated to medium. -/
theorem unit_conversion_flag_requires_7200 :
    validateClipTiming { id := "c", startTimeSeconds := 3661, endTimeSeconds := 3700 }
      = { isValid := true, issues := [], severity := .low,
          suggestedAction := "No action needed" } ∧
    validateClipTiming { id := "c", startTimeSeconds := 7230, endTimeSeconds := 7270 }
      = { isValid := false,
          issues := ["Start time might be incorrectly converted: 7230s could be 2:30 (2m 30s)"],
          severity := .medium,
          suggestedAction := "Review when convenient - unusual but might be valid" } := by
  exact ⟨by decide, by decide⟩

/-- C9: all the pinned `parseTimeToSeconds` examples hold: `"12:34"` gives
754, `"1:02:03"` gives 3723, `"90"` and numeric 90 give 90, while
`"12:60"`, `"-5"` and `"25:00:00"` (over 24 hours) all fail with an error. -/
theorem parseTimeToSeconds_pinned_examples :
    parseTimeToSeconds (.str "12:34") = .ok 754 ∧
    parseTimeToSeconds (.str "1:02:03") = .ok 3723 ∧
    parseTimeToSeconds (.str "90") = .ok 90 ∧
    parseTimeToSeconds (.num 90) = .ok 90 ∧
    parseTimeToSeconds (.str "12:60")
      = .error "Minutes and seconds must be less than 60, got: 60" ∧
    parseTimeToSeconds (.str "-5")
      = .error "Use format: seconds (123), mm:ss (12:34), or hh:mm:ss (1:23:45)" ∧
    parseTimeToSeconds (.str "25:00:00") = .error "Time cannot exceed 24 hours" := by
  refine ⟨by decide, by decide, by decide, by decide, by decide, by decide, by decide⟩

/-- C10 (counterexample): a colon-separated part with trailing non-digit
characters is *not* rejected: `parseTimeToSeconds("1:2a")` returns 62
seconds, because `parseInt("2a", 10)` parses the leading digits and ignores
the rest. -/
theorem parse_colon_part_trailing_garbage_accepted :
    parseTimeToSeconds (.str "1:2a") = .ok 62 := by decide

/-- C10 (amended): colon-separated parts are parsed with `parseInt`
semantics: a part with a leading digit run and trailing garbage is accepted
with the value of the leading digits (`"1:2a"` gives 62); a part fails only
when it has no leading integer at all (`"1:a"`) or its value is negative
(`"1:-2"`). -/
theorem parse_colon_parts_use_parseInt_semantics :
    parseTimeToSeconds (.str "1:2a") = .ok 62 ∧
    parseTimeToSeconds (.str "1:a") = .error "Invalid time component: \"a\"" ∧
    parseTimeToSeconds (.str "1:-2") = .error "Invalid time component: \"-2\"" := by
  refine ⟨by decide, by decide, by decide⟩
